import Mathlib

/-!
Shallow embedding of `bin/releaser.py` from the ap-loader repository
(the release build and verification orchestrator), together with proofs
about the claims of its specification.

Python strings are modelled as Lean `String`s, operated on through their
`List Char` data; filesystem and process effects are modelled as explicit
state (a list of existing paths) plus event traces; a Python exception is
modelled as `none` / an `error` value / a Boolean "raised" flag, as noted
at each definition.
-/

namespace Releaser

/-! ## Constants (releaser.py lines 20-45) -/

/-- The constant `SUB_VERSION = 4` from releaser.py line 20. -/
def SUB_VERSION : Nat := 4

/-- The constant `CACHE_TIME = 60 * 60 * 24` (one day), releaser.py line 45. -/
def CACHE_TIME : Nat := 60 * 60 * 24

/-- The repository root directory `CURRENT_DIR`; in the source it is
computed from the script location, here abstracted to a fixed path. -/
def CURRENT_DIR : String := "/repo"

/-! ## Python string primitives -/

/-- Helper for `pySplit`: accumulates the current field in reverse. -/
def pySplitAux (sep : Char) : List Char → List Char → List (List Char)
  | [], acc => [acc.reverse]
  | c :: cs, acc =>
    if c == sep then acc.reverse :: pySplitAux sep cs []
    else pySplitAux sep cs (c :: acc)

/-- Python `s.split(sep)` for a single-character separator `sep`
(all separators used in releaser.py are single characters). -/
def pySplit (s : List Char) (sep : Char) : List (List Char) :=
  pySplitAux sep s []

/-- Helper for `pySplitMax`: the `Nat` is the remaining split budget. -/
def pySplitMaxAux (sep : Char) : List Char → Nat → List Char → List (List Char)
  | [], _, acc => [acc.reverse]
  | c :: cs, 0, acc => [acc.reverse ++ (c :: cs)]
  | c :: cs, n + 1, acc =>
    if c == sep then acc.reverse :: pySplitMaxAux sep cs n []
    else pySplitMaxAux sep cs (n + 1) (c :: acc)

/-- Python `s.split(sep, maxsplit=n)` for a single-character separator. -/
def pySplitMax (s : List Char) (sep : Char) (n : Nat) : List (List Char) :=
  pySplitMaxAux sep s n []

/-- Python `s.endswith(suffix)`. -/
def pyEndsWith (s suffix : List Char) : Bool :=
  suffix.isSuffixOf s

/-- Python `s.startswith(p)`. -/
def pyStartsWith (s p : List Char) : Bool :=
  p.isPrefixOf s

/-! ## Release resolution (releaser.py lines 105-141)

`get_releases()` performs a network fetch; the fetched release list is a
parameter `releases` of every function below. -/

/-- One element of the JSON release list returned by the GitHub API,
restricted to the fields releaser.py reads. `assets` holds the
`browser_download_url` of each asset. -/
structure ReleaseDict where
  tag_name : String
  name : String
  body : String
  prerelease : Bool
  assets : List String
deriving DecidableEq

/-- releaser.py lines 118-120: the versions are the tags minus their leading
character, for releases whose version does not start with `1.` and whose
tag ends in a digit. Python `tag_name[-1]` on an empty tag would raise
an IndexError; that edge is modelled by a default non-digit character. -/
def get_release_versions (releases : List ReleaseDict) : List String :=
  (releases.filter (fun r =>
      !(pyStartsWith r.tag_name.data.tail "1.".data) &&
        (r.tag_name.data.getLastD ' ').isDigit)).map
    (fun r => ⟨r.tag_name.data.tail⟩)

/-- releaser.py lines 110-115: exact tag match (`"v" + release`) over the FULL
release list; with no match it prints the valid versions and calls
`sys.exit(1)`, modelled as `error` carrying `get_release_versions`. -/
def get_release (releases : List ReleaseDict) (release : String) :
    Except (List String) ReleaseDict :=
  match (releases.filter (fun d => d.tag_name == "v" ++ release)).head? with
  | some r => .ok r
  | none => .error (get_release_versions releases)

/-- releaser.py lines 136-137:
`archive_url.split("/")[-1].split("-", maxsplit=3)[3].split(".")[0]`.
The result is `none` exactly when Python raises an IndexError (the `[3]`
access; `[-1]` and `[0]` never fail because `split` always returns a
non-empty list). -/
def release_platform_for_url (archive_url : String) : Option String :=
  let fname := (pySplit archive_url.data '/').getLastD []
  ((pySplitMax fname '-' 3)[3]?).map (fun seg => (⟨(pySplit seg '.').headD []⟩ : String))

/-! ## Metadata cache (releaser.py lines 91-102) -/

/-- The cached file for one cache key: its modification time and its
content (an opaque byte string; JSON decoding is not modelled). -/
structure CacheEntry where
  mtime : Nat
  content : String
deriving DecidableEq

/-- Outcome of one `download_json` call: the cache file afterwards, the
returned content (`none` models an exception propagating to the caller),
and whether `request.urlretrieve` was invoked. -/
structure FetchOutcome where
  cacheAfter : Option CacheEntry
  result : Option String
  networkCalled : Bool
deriving DecidableEq

/-- releaser.py lines 91-102. `entry` is the cache file for this key
(`none` when `os.path.exists` is false), `now` is `time.time()`, and
`net` is what the network would deliver (`none` models
`request.urlretrieve` raising; in that case the cache file is left as it
was and the exception propagates, so no content is returned). -/
def download_json (entry : Option CacheEntry) (now : Nat) (net : Option String) :
    FetchOutcome :=
  match entry with
  | none =>
    match net with
    | none => ⟨none, none, true⟩
    | some payload => ⟨some ⟨now, payload⟩, some payload, true⟩
  | some e =>
    if e.mtime + CACHE_TIME ≤ now then
      match net with
      | none => ⟨some e, none, true⟩
      | some payload => ⟨some ⟨now, payload⟩, some payload, true⟩
    else
      ⟨some e, some e.content, false⟩

/-! ## Artifact acquisition (releaser.py lines 144-176)

The filesystem is modelled as the list of existing paths; each operation
returns the new filesystem and the trace of external effects. -/

/-- External effects performed during acquisition. -/
inductive AcqEvent where
  | netFetch (url : String) (dest : String)
  | runUnzip (file : String) (destDir : String)
  | runTar (file : String) (destDir : String)
  | rmTree (dir : String)
  | moveTree (src dst : String)
  | makeDirs (dir : String)
deriving DecidableEq

/-- Is the event an archive extraction (`unzip` or `tar -xzf`)? -/
def AcqEvent.isExtract : AcqEvent → Bool
  | .runUnzip _ _ => true
  | .runTar _ _ => true
  | _ => false

/-- Is the event a network request? -/
def AcqEvent.isNetFetch : AcqEvent → Bool
  | .netFetch _ _ => true
  | _ => false

/-- The local archive path computed at releaser.py line 149. -/
def archive_file_for (release ending platform : String) : String :=
  CURRENT_DIR ++ "/ap-releases/async-profiler-" ++ release ++ "-" ++ platform ++ ending

/-- releaser.py lines 144-157. Returns `none` when Python raises: the
IndexError of `[...][0]` at line 148 when the url ends neither in `.zip`
nor `.tar.gz`, or the IndexError inside `release_platform_for_url`. The
download is skipped when the archive already exists, but the archive is
unpacked unconditionally (lines 152-155); the final `else: raise` branch
is unreachable because line 148 already raised in that case. -/
def download_release_url (fs : List String) (release release_url : String) :
    Option (List String × List AcqEvent) :=
  match ([".zip", ".tar.gz"].filter (fun e => pyEndsWith release_url.data e.data)).head? with
  | none => none
  | some ending =>
    match release_platform_for_url release_url with
    | none => none
    | some platform =>
      let dest_folder := CURRENT_DIR ++ "/ap-releases"
      let archive_file := archive_file_for release ending platform
      let fetch :=
        if fs.contains archive_file then ([], fs)
        else ([AcqEvent.netFetch release_url archive_file], archive_file :: fs)
      let unpack :=
        if pyEndsWith release_url.data ".zip".data then
          [AcqEvent.runUnzip archive_file dest_folder]
        else
          [AcqEvent.runTar archive_file dest_folder]
      some (fetch.2, [AcqEvent.makeDirs dest_folder] ++ fetch.1 ++ unpack)

/-- The source snapshot archive path of releaser.py line 163. -/
def code_archive_file (release : String) : String :=
  CURRENT_DIR ++ "/ap-releases/async-profiler-" ++ release ++ "-code.zip"

/-- releaser.py lines 160-170: the source snapshot is downloaded only when
absent, but ALWAYS re-extracted; the previous extraction directory is
removed and the fresh one moved into its place, then a build
subdirectory is created. -/
def download_release_code (fs : List String) (release : String) :
    List String × List AcqEvent :=
  let dest_folder := CURRENT_DIR ++ "/ap-releases/async-profiler-" ++ release ++ "-code"
  let archive_file := code_archive_file release
  let url := "https://github.com/jvm-profiling-tools/async-profiler/archive/refs/tags/v" ++
    release ++ ".zip"
  let fetch :=
    if fs.contains archive_file then ([], fs)
    else ([AcqEvent.netFetch url archive_file], archive_file :: fs)
  (fetch.2,
   fetch.1 ++
    [AcqEvent.runUnzip archive_file (CURRENT_DIR ++ "/ap-releases"),
     AcqEvent.rmTree dest_folder,
     AcqEvent.moveTree (CURRENT_DIR ++ "/ap-releases/async-profiler-" ++ release) dest_folder,
     AcqEvent.makeDirs (dest_folder ++ "/build")])

/-- The per-url download loop of releaser.py lines 174-175; a raised
exception (`none`) aborts the remaining urls, as in Python. -/
def download_release_urls (fs : List String) (release : String) :
    List String → Option (List String × List AcqEvent)
  | [] => some (fs, [])
  | u :: us =>
    match download_release_url fs release u with
    | none => none
    | some (fs1, ev1) =>
      match download_release_urls fs1 release us with
      | none => none
      | some (fs2, ev2) => some (fs2, ev1 ++ ev2)

/-- releaser.py lines 173-176: download every asset url, then the source
snapshot. `urls` stands for `get_release_asset_urls(release)`. -/
def download_release (fs : List String) (release : String) (urls : List String) :
    Option (List String × List AcqEvent) :=
  match download_release_urls fs release urls with
  | none => none
  | some (fs1, ev1) =>
    let r := download_release_code fs1 release
    some (r.1, ev1 ++ r.2)

/-- The archive file that `download_release_url` checks for existence,
reconstructed from the url alone (`none` when the url is one on which
`download_release_url` raises). -/
def expected_archive_file (release release_url : String) : Option String :=
  match ([".zip", ".tar.gz"].filter (fun e => pyEndsWith release_url.data e.data)).head?,
      release_platform_for_url release_url with
  | some ending, some platform => some (archive_file_for release ending platform)
  | _, _ => none

/-! ## Verification harness (releaser.py lines 262-277) -/

/-- The exceptions raised by `test_releases_basic_execution`. -/
inductive HarnessError where
  | noPlatformWorks (release : String)
  | multiplePlatformsWork (release : String) (results : List String)
  | allJarFails (release : String)
deriving DecidableEq

/-- releaser.py lines 262-277. `test platform` is the (deterministic) result
of `test_release_basic_execution release platform`; determinism makes the
diagnostic re-runs (with `ignore_output=False`) return the same value as
the first run. The first component is the outcome (`error` models the
raised exception); the second lists the artifacts re-run with diagnostics
enabled. -/
def test_releases_basic_execution (release : String) (platforms : List String)
    (test : String → Bool) : Except HarnessError Unit × List String :=
  let results := platforms.filter test
  if results.isEmpty then (.error (.noPlatformWorks release), platforms)
  else if results.length > 1 then (.error (.multiplePlatformsWork release results), [])
  else if test "all" then (.ok (), [])
  else (.error (.allJarFails release), ["all"])

/-! ## Maven deployment (releaser.py lines 48-84 and 311-324) -/

/-- External effects of `deploy_maven_platform`. -/
inductive MvnEvent where
  | writePom (path : String)
  | run (cmd : String)
  | runInteractive (cmd : String)
  | removeFile (path : String)
deriving DecidableEq

/-- releaser.py line 52: the file suffix used by `prepare_poms`. -/
def pom_suffix (release : String) (snapshot : Bool) : String :=
  "-" ++ release ++ (if snapshot then "-SNAPSHOT" else "")

/-- Path of the substituted `pom.xml` written by `prepare_poms`. -/
def pom_path (release : String) (snapshot : Bool) : String :=
  CURRENT_DIR ++ "/pom" ++ pom_suffix release snapshot ++ ".xml"

/-- Path of the substituted `pom_all.xml` written by `prepare_poms`. -/
def pom_all_path (release : String) (snapshot : Bool) : String :=
  CURRENT_DIR ++ "/pom_all" ++ pom_suffix release snapshot ++ ".xml"

/-- releaser.py lines 314-316: the maven deploy command; the POM is
`pom_all` exactly for the platform `all`. -/
def mvn_deploy_cmd (release platform : String) (snapshot : Bool) : String :=
  "mvn -Duser.name=\x27\x27 -Dproject.vversion=" ++ release ++
  " -Dproject.subversion=" ++ toString SUB_VERSION ++
  " -Dproject.platform=" ++ platform ++
  " -Dproject.suffix=\x27" ++ (if snapshot then "-SNAPSHOT" else "") ++ "\x27 -f " ++
  (if platform == "all" then pom_all_path release snapshot else pom_path release snapshot) ++
  " clean deploy"

/-- releaser.py lines 311-324. `publish_ok` is whether the
`subprocess.check_call` of line 318 succeeds. The `PreparedPOMs` context
manager (lines 71-84) writes both POMs on entry and removes them on exit,
also when the command raised; on failure the same command is replayed once
via `os.system` (the interactive environment) and the original error is
re-raised (second component `true`). -/
def deploy_maven_platform (release platform : String) (snapshot publish_ok : Bool) :
    List MvnEvent × Bool :=
  let cmd := mvn_deploy_cmd release platform snapshot
  let attempt :=
    if publish_ok then [MvnEvent.run cmd]
    else [MvnEvent.run cmd, MvnEvent.runInteractive cmd]
  ([MvnEvent.writePom (pom_path release snapshot),
    MvnEvent.writePom (pom_all_path release snapshot)] ++ attempt ++
   [MvnEvent.removeFile (pom_path release snapshot),
    MvnEvent.removeFile (pom_all_path release snapshot)],
   !publish_ok)

/-! ## GitHub deployment (releaser.py lines 342-378) -/

/-- External effects of `deploy_github`. -/
inductive GhEvent where
  | buildRelease (release : String)
  | writeChangelog (path : String)
  | copyArtifact (src dst : String)
  | run (cmd : String)
  | runInteractive (cmd : String)
deriving DecidableEq

/-- releaser.py line 364: the staged asset paths, each quoted, joined by spaces. -/
def quoteJoin (paths : List String) : String :=
  String.intercalate " " (paths.map (fun p => "\"" ++ p ++ "\""))

/-- releaser.py lines 362-363: the flag string shared by create and edit. -/
def gh_flags_str (changelog_file title : String) (is_latest prerelease : Bool) : String :=
  "-F " ++ changelog_file ++ " -t \x27" ++ title ++ "\x27 " ++
  (if is_latest then "--latest" else "") ++ " " ++
  (if prerelease then "--prerelease" else "")

/-- releaser.py line 365: the `gh release create` command. -/
def gh_create_cmd (release flags_str paths_str : String) : String :=
  "gh release create " ++ release ++ "-" ++ toString SUB_VERSION ++ " " ++
  flags_str ++ " " ++ paths_str

/-- releaser.py line 372: the fallback command, editing the existing release
and re-uploading every asset with the `--clobber` overwrite flag. -/
def gh_edit_cmd (release flags_str paths_str : String) : String :=
  "gh release edit " ++ release ++ "-" ++ toString SUB_VERSION ++ " " ++ flags_str ++
  "; gh release upload " ++ release ++ "-" ++ toString SUB_VERSION ++ " " ++
  paths_str ++ " --clobber"

/-- The flag string as built inside `deploy_github` (lines 345, 351, 362). -/
def deploy_github_flags (release name d : String) (is_latest prerelease : Bool) : String :=
  gh_flags_str (d ++ "/CHANGELOG.md")
    ("Loader for " ++ release ++ " (v" ++ toString SUB_VERSION ++ "): " ++ name)
    is_latest prerelease

/-- The quoted staged asset paths as built inside `deploy_github`
(lines 356-364). -/
def deploy_github_paths (platforms : List String) (d : String) : String :=
  quoteJoin ((platforms ++ ["all"]).map (fun p => d ++ "/ap-loader-" ++ p ++ ".jar"))

/-- releaser.py lines 342-378. `name` and `prerelease` come from the
resolved upstream release, `is_latest` from comparing against the most
recent release, `d` is the temporary directory, `all_jar_exists` is the
`os.path.exists` check of line 348, and `create_ok` / `fallback_ok` are
the outcomes of the two `subprocess.check_call` invocations. Returns the
event trace and whether an exception escapes `deploy_github`; note that
after a failed fallback the command is replayed via `os.system` (line
377) whose exit status is discarded, so no exception ever escapes on
this path (second component is constantly `false`). -/
def deploy_github (release name : String) (is_latest prerelease : Bool)
    (platforms : List String) (d : String)
    (all_jar_exists create_ok fallback_ok : Bool) : List GhEvent × Bool :=
  let buildEvents :=
    if all_jar_exists then [] else [GhEvent.buildRelease release]
  let changelog_file := d ++ "/CHANGELOG.md"
  let releases_dir := CURRENT_DIR ++ "/releases"
  let copyEvents := (platforms ++ ["all"]).map (fun p =>
    GhEvent.copyArtifact
      (releases_dir ++ "/ap-loader-" ++ p ++ "-" ++ release ++ "-" ++
        toString SUB_VERSION ++ ".jar")
      (d ++ "/ap-loader-" ++ p ++ ".jar"))
  let flags_str := deploy_github_flags release name d is_latest prerelease
  let paths_str := deploy_github_paths platforms d
  let createCmd := gh_create_cmd release flags_str paths_str
  let editCmd := gh_edit_cmd release flags_str paths_str
  let runEvents :=
    if create_ok then [GhEvent.run createCmd]
    else if fallback_ok then [GhEvent.run createCmd, GhEvent.run editCmd]
    else [GhEvent.run createCmd, GhEvent.run editCmd, GhEvent.runInteractive editCmd]
  (buildEvents ++ [GhEvent.writeChangelog changelog_file] ++ copyEvents ++ runEvents,
   false)

/-! ## Concrete fixtures used by counterexamples and witnesses -/

/-- A legacy (major version 1) release as returned by the GitHub API. -/
def legacyRel : ReleaseDict :=
  ⟨"v1.8.3", "1.8.3", "notes", false, []⟩

/-- A realistic platform asset url for release 2.9. -/
def exUrl : String :=
  "https://github.com/jvm-profiling-tools/async-profiler/releases/download/v2.9/async-profiler-2.9-linux-x64.tar.gz"

/-- The archive file that `download_release_url` derives for `exUrl`. -/
def exArchive : String :=
  "/repo/ap-releases/async-profiler-2.9-linux-x64.tar.gz"

/-- A filesystem on which release 2.9 is already fully downloaded. -/
def exFs : List String :=
  [exArchive, code_archive_file "2.9"]

/-! ## Helper lemmas -/

theorem pySplitAux_length_pos (sep : Char) (s : List Char) :
    ∀ acc, 0 < (pySplitAux sep s acc).length := by
  induction s with
  | nil => intro acc; simp [pySplitAux]
  | cons c cs ih =>
    intro acc
    by_cases h : (c == sep) = true
    · simp [pySplitAux, h]
    · simpa [pySplitAux, h] using ih (c :: acc)

theorem pySplitMaxAux_length (sep : Char) (s : List Char) :
    ∀ (n : Nat) (acc : List Char),
      (pySplitMaxAux sep s n acc).length = min (pySplitAux sep s acc).length (n + 1) := by
  induction s with
  | nil => intro n acc; simp [pySplitMaxAux, pySplitAux]
  | cons c cs ih =>
    intro n acc
    cases n with
    | zero =>
      have h1 := pySplitAux_length_pos sep (c :: cs) acc
      simp only [pySplitMaxAux, List.length_cons, List.length_nil]
      omega
    | succ m =>
      by_cases h : (c == sep) = true
      · simp [pySplitMaxAux, pySplitAux, h, ih]
        omega
      · simp [pySplitMaxAux, pySplitAux, h, ih]

theorem pySplitMax_length (s : List Char) (sep : Char) (n : Nat) :
    (pySplitMax s sep n).length = min (pySplit s sep).length (n + 1) :=
  pySplitMaxAux_length sep s n []

/-! ## Claim theorems -/

/-- Claim C3, counterexample: on the asset filename
`tool-2.9-linux-x64.tar.gz` given by the specification, the code derives
the platform `x64`, not `linux-x64` (the fourth `-`-field of that name is
`x64.tar.gz`). -/
theorem C3_counterexample :
    release_platform_for_url "tool-2.9-linux-x64.tar.gz" ≠ some "linux-x64" := by
  decide

/-- Claim C3 (amended): platform extraction takes the fourth `-`-separated
field onward of the final path segment, truncated before the first `.`;
on a real asset filename `async-profiler-2.9-linux-x64.tar.gz` this
yields `linux-x64`, while on the specification example
`tool-2.9-linux-x64.tar.gz` it yields `x64`. -/
theorem C3_platform_extraction :
    release_platform_for_url
        "https://github.com/jvm-profiling-tools/async-profiler/releases/download/v2.9/async-profiler-2.9-linux-x64.tar.gz" =
      some "linux-x64" ∧
    release_platform_for_url "tool-2.9-linux-x64.tar.gz" = some "x64" := by
  exact ⟨by decide, by decide⟩

/-- Claim C9: platform extraction is partial; it raises an IndexError
(modelled as `none`) exactly when the final path segment of the url has
fewer than four `-`-separated fields, and returns a platform identifier
exactly when at least four fields are present. -/
theorem C9_platform_extraction_not_total (url : String) :
    release_platform_for_url url = none ↔
      (pySplit ((pySplit url.data '/').getLastD []) '-').length < 4 := by
  simp only [release_platform_for_url, Option.map_eq_none']
  rw [List.getElem?_eq_none_iff, pySplitMax_length]
  omega

/-- Witness for C9 at the concrete input `ap-2.8.3.zip` (two fields):
extraction raises. -/
theorem C9_witness : release_platform_for_url "ap-2.8.3.zip" = none :=
  (C9_platform_extraction_not_total "ap-2.8.3.zip").mpr (by decide)

/-- Claim C1: after the per-platform basic-execution checks, the harness
raises iff the number of passing non-`all` platforms is not exactly one:
zero passing re-runs every platform with diagnostics and raises; more
than one passing raises; exactly one passing proceeds to the `all`
artifact, whose failure is the only remaining error. -/
theorem C1_cross_check (release : String) (platforms : List String)
    (test : String → Bool) :
    (((test_releases_basic_execution release platforms test).1 = .ok () ∨
      (test_releases_basic_execution release platforms test).1 =
        .error (.allJarFails release)) ↔
      (platforms.filter test).length = 1) ∧
    ((platforms.filter test).length = 0 →
      test_releases_basic_execution release platforms test =
        (.error (.noPlatformWorks release), platforms)) ∧
    (1 < (platforms.filter test).length →
      (test_releases_basic_execution release platforms test).1 =
        .error (.multiplePlatformsWork release (platforms.filter test))) ∧
    ((platforms.filter test).length = 1 →
      (test_releases_basic_execution release platforms test).1 =
        if test "all" then .ok () else .error (.allJarFails release)) := by
  rcases h : platforms.filter test with _ | ⟨a, _ | ⟨b, t⟩⟩ <;>
    by_cases hall : test "all" = true <;>
      simp_all [test_releases_basic_execution]

/-- Witness for C1: with platforms `linux-x64` and `macos` of which exactly
`linux-x64` passes (and the `all` jar passes), the harness succeeds. -/
theorem C1_witness :
    (test_releases_basic_execution "2.9" ["linux-x64", "macos"]
      (fun p => p == "linux-x64" || p == "all")).1 = .ok () := by
  have h := (C1_cross_check "2.9" ["linux-x64", "macos"]
    (fun p => p == "linux-x64" || p == "all")).2.2.2 (by decide)
  have hc : (("all" == "linux-x64" || "all" == "all") = true) := by decide
  rw [h, if_pos hc]

/-- Whenever `download_json` returns content, that content is exactly the
content of the cache file it leaves behind. -/
theorem download_json_result_content (entry : Option CacheEntry) (now : Nat)
    (net : Option String) :
    (download_json entry now net).result = none ∨
    (download_json entry now net).result =
      (download_json entry now net).cacheAfter.map CacheEntry.content := by
  rcases entry with _ | e <;> rcases net with _ | payload <;>
    simp only [download_json] <;> try simp
  · split <;> simp
  · split <;> simp

/-- Claim C4: a fetch with no cached file, or with a cached file whose
modification time plus the TTL is at or before now, downloads and
overwrites the cache; a fresh cached file is returned unmodified with no
network call; hence a second fetch within the TTL window returns content
byte-identical to the first, without a network call. -/
theorem C4_cache_ttl (entry : Option CacheEntry) (now : Nat) (payload : String) :
    ((entry = none ∨ ∃ e, entry = some e ∧ e.mtime + CACHE_TIME ≤ now) →
      download_json entry now (some payload) = ⟨some ⟨now, payload⟩, some payload, true⟩) ∧
    (∀ e, entry = some e → now < e.mtime + CACHE_TIME →
      download_json entry now (some payload) = ⟨some e, some e.content, false⟩) ∧
    (∀ e1 c1 b1 now2 net2,
      download_json entry now (some payload) = ⟨some e1, some c1, b1⟩ →
      now2 < e1.mtime + CACHE_TIME →
      download_json (some e1) now2 net2 = ⟨some e1, some c1, false⟩) := by
  refine ⟨?_, ?_, ?_⟩
  · rintro (rfl | ⟨e, rfl, hle⟩)
    · rfl
    · simp [download_json, if_pos hle]
  · rintro e rfl hlt
    simp [download_json, Nat.not_le.mpr hlt]
  · intro e1 c1 b1 now2 net2 hrun hlt
    have hcontent : c1 = e1.content := by
      rcases download_json_result_content entry now (some payload) with h | h <;>
        rw [hrun] at h <;> simp at h
      exact h
    subst hcontent
    simp [download_json, Nat.not_le.mpr hlt]

/-- Witness for C4: a first fetch at time 0 populates the cache; a second
fetch at time 100 (within the TTL) returns the same content without a
network call, even though the network would now deliver different bytes. -/
theorem C4_witness :
    download_json none 0 (some "payloadA") =
      ⟨some ⟨0, "payloadA"⟩, some "payloadA", true⟩ ∧
    download_json (some ⟨0, "payloadA"⟩) 100 (some "payloadB") =
      ⟨some ⟨0, "payloadA"⟩, some "payloadA", false⟩ := by
  have h1 := (C4_cache_ttl none 0 "payloadA").1 (Or.inl rfl)
  exact ⟨h1, (C4_cache_ttl none 0 "payloadA").2.2 ⟨0, "payloadA"⟩ "payloadA" true 100
    (some "payloadB") h1 (by decide)⟩

/-- Claim C5, counterexample: with a STALE cached entry, a network fetch
failure DOES force an error: `download_json` lets the exception
propagate (result `none`) instead of serving the stale content. -/
theorem C5_counterexample :
    (download_json (some ⟨0, "cached"⟩) CACHE_TIME none).result = none ∧
    (download_json (some ⟨0, "cached"⟩) CACHE_TIME none).networkCalled = true := by
  decide

/-- Claim C5 (amended): a fetch failure never deletes the cached entry
(fresh or stale), and an entry is only ever replaced by a successful
re-fetch; with a still-fresh entry no network call is made, so no fetch
failure can occur; with a stale entry, however, a fetch failure
propagates as an error rather than being absorbed by the stale content. -/
theorem C5_stale_entry_kept (entry : Option CacheEntry) (now : Nat) (net : Option String) :
    (net = none → (download_json entry now net).cacheAfter = entry) ∧
    (∀ e, entry = some e → now < e.mtime + CACHE_TIME →
      download_json entry now net = ⟨some e, some e.content, false⟩) ∧
    (∀ e, entry = some e → e.mtime + CACHE_TIME ≤ now → net = none →
      (download_json entry now net).result = none) ∧
    ((download_json entry now net).cacheAfter ≠ entry →
      ∃ payload, net = some payload ∧
        (download_json entry now net).cacheAfter = some ⟨now, payload⟩) := by
  refine ⟨?_, ?_, ?_, ?_⟩
  · rintro rfl
    rcases entry with _ | e
    · rfl
    · simp only [download_json]
      split <;> rfl
  · rintro e rfl hlt
    simp [download_json, Nat.not_le.mpr hlt]
  · rintro e rfl hle rfl
    simp [download_json, if_pos hle]
  · intro hne
    rcases entry with _ | e <;> rcases net with _ | payload
    · simp [download_json] at hne
    · exact ⟨payload, rfl, by simp [download_json]⟩
    · simp only [download_json] at hne
      split at hne <;> simp_all
    · by_cases hc : e.mtime + CACHE_TIME ≤ now
      · exact ⟨payload, rfl, by simp [download_json, if_pos hc]⟩
      · simp [download_json, if_neg hc] at hne

/-- Witness for C5: at the concrete stale entry and failing network, the
entry is kept and the error propagates. -/
theorem C5_witness :
    (download_json (some ⟨0, "old"⟩) CACHE_TIME none).cacheAfter = some ⟨0, "old"⟩ ∧
    (download_json (some ⟨0, "old"⟩) CACHE_TIME none).result = none :=
  ⟨(C5_stale_entry_kept (some ⟨0, "old"⟩) CACHE_TIME none).1 rfl,
   (C5_stale_entry_kept (some ⟨0, "old"⟩) CACHE_TIME none).2.2.1 ⟨0, "old"⟩ rfl
     (by decide) rfl⟩

/-- Claim C7, counterexample: a version belonging to the legacy major
version 1 whose tag is present in the remote list resolves successfully;
no legacy filtering happens before the exact tag match of `get_release`. -/
theorem C7_counterexample :
    get_release [legacyRel] "1.8.3" = .ok legacyRel := by
  rfl

/-- Claim C7 (amended): `get_release` selects by exact tag match (`"v"` plus
the version) over the FULL, unfiltered release list, so a legacy version
whose tag is present resolves successfully; only when no tag matches does
it report an unknown-version error, and the valid versions listed with
that error exclude the legacy major version (no listed version starts
with `1.`). -/
theorem C7_resolution (releases : List ReleaseDict) (release : String) :
    (∀ r ∈ releases, r.tag_name = "v" ++ release →
      ∃ r2 ∈ releases, get_release releases release = .ok r2) ∧
    (∀ vs, get_release releases release = .error vs →
      ((∀ r ∈ releases, r.tag_name ≠ "v" ++ release) ∧
       vs = get_release_versions releases ∧
       ∀ v ∈ vs, pyStartsWith v.data "1.".data = false)) := by
  constructor
  · intro r hr htag
    have hmem : r ∈ releases.filter (fun d => d.tag_name == "v" ++ release) :=
      List.mem_filter.mpr ⟨hr, by simp [htag]⟩
    rcases hh : (releases.filter (fun d => d.tag_name == "v" ++ release)).head? with _ | r2
    · rw [List.head?_eq_none_iff] at hh
      simp [hh] at hmem
    · refine ⟨r2, ?_, ?_⟩
      · rcases List.head?_eq_some_iff.mp hh with ⟨ys, hys⟩
        exact List.mem_of_mem_filter (hys ▸ List.mem_cons_self r2 ys)
      · simp [get_release, hh]
  · intro vs herr
    rcases hh : (releases.filter (fun d => d.tag_name == "v" ++ release)).head? with _ | r2
    · rw [List.head?_eq_none_iff] at hh
      refine ⟨?_, ?_, ?_⟩
      · intro r hr htag
        have hmem : r ∈ releases.filter (fun d => d.tag_name == "v" ++ release) :=
          List.mem_filter.mpr ⟨hr, by simp [htag]⟩
        simp [hh] at hmem
      · simp [get_release, hh] at herr
        exact herr.symm
      · intro v hv
        have hvs : vs = get_release_versions releases := by
          simp [get_release, hh] at herr
          exact herr.symm
        subst hvs
        simp only [get_release_versions, List.mem_map] at hv
        rcases hv with ⟨r, hrmem, hrv⟩
        have hp := (List.mem_filter.mp hrmem).2
        simp only [Bool.and_eq_true, Bool.not_eq_true'] at hp
        rw [← hrv]
        exact hp.1
    · simp [get_release, hh] at herr

/-- Witness for C7: the legacy release fixture resolves successfully. -/
theorem C7_witness :
    ∃ r2 ∈ [legacyRel], get_release [legacyRel] "1.8.3" = .ok r2 :=
  (C7_resolution [legacyRel] "1.8.3").1 legacyRel (List.mem_singleton.mpr rfl) rfl

/-- Claim C8: the two temporary substituted POMs are deleted regardless of
the publish outcome; a failed publish is replayed exactly once, with the
identical command, in the interactive environment; and the original
error is then re-raised (the call raises exactly when the publish
failed). -/
theorem C8_pom_cleanup (release platform : String) (snapshot publish_ok : Bool) :
    (MvnEvent.removeFile (pom_path release snapshot) ∈
        (deploy_maven_platform release platform snapshot publish_ok).1 ∧
     MvnEvent.removeFile (pom_all_path release snapshot) ∈
        (deploy_maven_platform release platform snapshot publish_ok).1) ∧
    ((deploy_maven_platform release platform snapshot publish_ok).1.count
        (MvnEvent.runInteractive (mvn_deploy_cmd release platform snapshot)) =
      if publish_ok then 0 else 1) ∧
    (deploy_maven_platform release platform snapshot publish_ok).2 = !publish_ok := by
  cases publish_ok <;>
    simp [deploy_maven_platform, List.count_cons, List.count_append]

/-- Witness for C8 at a concrete failing publish: the substituted `pom.xml`
is removed even though the publish failed. -/
theorem C8_witness :
    MvnEvent.removeFile (pom_path "2.9" true) ∈
      (deploy_maven_platform "2.9" "macos" true false).1 :=
  (C8_pom_cleanup "2.9" "macos" true false).1.1

/-- For every string `b`, `a ++ b` ends with `b` (Python `endswith`). -/
theorem pyEndsWith_append (a b : String) : pyEndsWith (a ++ b).data b.data = true := by
  rw [pyEndsWith, List.isSuffixOf_iff_suffix, String.data_append]
  exact List.suffix_append a.data b.data

/-- Claim C6, counterexample: with both the release creation and the
fallback edit-and-upload failing persistently, `deploy_github` still
returns normally — the final interactive replay discards its exit status
and nothing is re-raised (second component `false`, where the claim
requires the failure to surface as a non-zero outcome). -/
theorem C6_counterexample :
    (deploy_github "2.9" "a name" false false ["linux-x64"] "/tmp/stage"
      true false false).2 = false := rfl

/-- Claim C6 (amended): when creating the tagged release fails, the
publisher falls back to editing the existing tagged release and
re-uploading assets with the explicit `--clobber` overwrite flag, and
when that fallback also fails it replays the same command once in the
interactive environment; the persistent failure is however NOT surfaced
to the caller: `deploy_github` never raises. -/
theorem C6_fallback (release name : String) (is_latest prerelease : Bool)
    (platforms : List String) (d : String) (all_jar_exists fallback_ok : Bool) :
    (GhEvent.run (gh_edit_cmd release (deploy_github_flags release name d is_latest prerelease)
        (deploy_github_paths platforms d)) ∈
      (deploy_github release name is_latest prerelease platforms d
        all_jar_exists false fallback_ok).1) ∧
    (fallback_ok = false →
      GhEvent.runInteractive
          (gh_edit_cmd release (deploy_github_flags release name d is_latest prerelease)
            (deploy_github_paths platforms d)) ∈
        (deploy_github release name is_latest prerelease platforms d
          all_jar_exists false fallback_ok).1) ∧
    pyEndsWith (gh_edit_cmd release (deploy_github_flags release name d is_latest prerelease)
        (deploy_github_paths platforms d)).data " --clobber".data = true ∧
    (∀ create_ok : Bool,
      (deploy_github release name is_latest prerelease platforms d
        all_jar_exists create_ok fallback_ok).2 = false) := by
  refine ⟨?_, ?_, ?_, ?_⟩
  · cases fallback_ok <;> simp [deploy_github]
  · rintro rfl
    simp [deploy_github]
  · exact pyEndsWith_append _ _
  · intro create_ok
    rfl

/-- Witness for C6: at concrete inputs with persistent failure, the
interactive replay of the edit command appears in the trace. -/
theorem C6_witness :
    GhEvent.runInteractive
        (gh_edit_cmd "2.9" (deploy_github_flags "2.9" "a name" "/tmp/stage" false false)
          (deploy_github_paths ["linux-x64"] "/tmp/stage")) ∈
      (deploy_github "2.9" "a name" false false ["linux-x64"] "/tmp/stage"
        true false false).1 :=
  (C6_fallback "2.9" "a name" false false ["linux-x64"] "/tmp/stage" true false).2.1 rfl

/-- Claim C10: when the `all` bundle artifact for the requested version and
subversion is absent at publish time, `deploy_github` first runs the
full build matrix — the build event is the head of the trace, preceding
every staging copy and upload command; when the artifact exists, no
build happens at all (existing artifacts are left untouched). -/
theorem C10_build_if_absent (release name : String) (is_latest prerelease : Bool)
    (platforms : List String) (d : String) (create_ok fallback_ok : Bool) :
    ((deploy_github release name is_latest prerelease platforms d
        false create_ok fallback_ok).1 =
      GhEvent.buildRelease release ::
        (deploy_github release name is_latest prerelease platforms d
          true create_ok fallback_ok).1) ∧
    (∀ r, GhEvent.buildRelease r ∉
      (deploy_github release name is_latest prerelease platforms d
        true create_ok fallback_ok).1) := by
  constructor
  · simp [deploy_github]
  · intro r hr
    cases create_ok <;> cases fallback_ok <;> simp [deploy_github] at hr

/-- Claim C2, counterexample: with release 2.9 already fully downloaded
(`exFs` holds both the platform archive and the source snapshot
archive), re-running download still re-extracts the PLATFORM archive
(`tar -xzf` on it appears in the trace), not only the source snapshot:
the existence check of releaser.py line 150 only guards the download,
lines 152-155 unpack unconditionally. -/
theorem C2_counterexample :
    (download_release exFs "2.9" [exUrl]).map
        (fun r => r.2.contains (AcqEvent.runTar exArchive "/repo/ap-releases")) =
      some true := by
  decide

/-- One step of the cached download loop: when the expected archive already
exists, `download_release_url` performs no network request and exactly
one extraction, leaving the filesystem unchanged. -/
theorem download_release_url_cached (fs : List String) (release u a : String)
    (ha : expected_archive_file release u = some a) (hmem : fs.contains a = true) :
    ∃ evs, download_release_url fs release u = some (fs, evs) ∧
      evs.all (fun e => !e.isNetFetch) = true ∧
      evs.countP (fun e => e.isExtract) = 1 := by
  rw [expected_archive_file] at ha
  split at ha
  case _ ending platform h1 h2 =>
    rw [Option.some_inj] at ha
    subst ha
    rw [download_release_url, h1, h2]
    simp only [hmem, if_true]
    refine ⟨_, rfl, ?_, ?_⟩ <;> split <;> rfl
  case _ => exact absurd ha (by simp_all)

/-- The cached download loop over all asset urls: no network requests, one
extraction per url, filesystem unchanged. -/
theorem download_release_urls_cached (release : String) (urls : List String) :
    ∀ fs : List String,
      (∀ u ∈ urls, ∃ a, expected_archive_file release u = some a ∧ fs.contains a = true) →
      ∃ evs, download_release_urls fs release urls = some (fs, evs) ∧
        evs.all (fun e => !e.isNetFetch) = true ∧
        evs.countP (fun e => e.isExtract) = urls.length := by
  induction urls with
  | nil => exact fun fs _ => ⟨[], rfl, rfl, rfl⟩
  | cons u us ih =>
    intro fs h
    obtain ⟨a, ha, hmem⟩ := h u (List.mem_cons_self u us)
    obtain ⟨ev1, h1, hnet1, hext1⟩ := download_release_url_cached fs release u a ha hmem
    obtain ⟨ev2, h2, hnet2, hext2⟩ := ih fs (fun v hv => h v (List.mem_cons_of_mem u hv))
    refine ⟨ev1 ++ ev2, ?_, ?_, ?_⟩
    · simp only [download_release_urls, h1, h2]
    · rw [List.all_append, hnet1, hnet2]
      rfl
    · rw [List.countP_append, hext1, hext2, List.length_cons]
      omega

/-- Claim C2 (amended): re-running download for an already-fully-downloaded
release performs zero network requests, but extraction is NOT skipped:
every platform archive is re-unpacked and the source snapshot is always
re-extracted (with its prior extraction directory removed), for a total
of one extraction per asset url plus one for the source snapshot; only
the downloads themselves are skipped, and the filesystem of archives is
unchanged. -/
theorem C2_download_idempotent (fs : List String) (release : String) (urls : List String)
    (hurls : ∀ u ∈ urls, ∃ a, expected_archive_file release u = some a ∧
      fs.contains a = true)
    (hcode : fs.contains (code_archive_file release) = true) :
    ∃ evs, download_release fs release urls = some (fs, evs) ∧
      evs.all (fun e => !e.isNetFetch) = true ∧
      evs.countP (fun e => e.isExtract) = urls.length + 1 ∧
      AcqEvent.rmTree (CURRENT_DIR ++ "/ap-releases/async-profiler-" ++ release ++ "-code")
        ∈ evs ∧
      AcqEvent.runUnzip (code_archive_file release) (CURRENT_DIR ++ "/ap-releases") ∈ evs := by
  obtain ⟨ev1, h1, hnet1, hext1⟩ := download_release_urls_cached release urls fs hurls
  have hcodeRun : download_release_code fs release =
      (fs, [AcqEvent.runUnzip (code_archive_file release) (CURRENT_DIR ++ "/ap-releases"),
            AcqEvent.rmTree (CURRENT_DIR ++ "/ap-releases/async-profiler-" ++ release ++ "-code"),
            AcqEvent.moveTree (CURRENT_DIR ++ "/ap-releases/async-profiler-" ++ release)
              (CURRENT_DIR ++ "/ap-releases/async-profiler-" ++ release ++ "-code"),
            AcqEvent.makeDirs (CURRENT_DIR ++ "/ap-releases/async-profiler-" ++ release ++
              "-code" ++ "/build")]) := by
    rw [download_release_code]
    simp only [hcode, if_true, List.nil_append]
  refine ⟨ev1 ++
      [AcqEvent.runUnzip (code_archive_file release) (CURRENT_DIR ++ "/ap-releases"),
       AcqEvent.rmTree (CURRENT_DIR ++ "/ap-releases/async-profiler-" ++ release ++ "-code"),
       AcqEvent.moveTree (CURRENT_DIR ++ "/ap-releases/async-profiler-" ++ release)
         (CURRENT_DIR ++ "/ap-releases/async-profiler-" ++ release ++ "-code"),
       AcqEvent.makeDirs (CURRENT_DIR ++ "/ap-releases/async-profiler-" ++ release ++
         "-code" ++ "/build")], ?_, ?_, ?_, ?_, ?_⟩
  · simp only [download_release, h1, hcodeRun]
  · rw [List.all_append, hnet1]
    rfl
  · rw [List.countP_append, hext1]
    rfl
  · exact List.mem_append_right _ (by simp)
  · exact List.mem_append_right _ (by simp)

/-- Witness for C2 (amended) at the concrete fully-downloaded release 2.9:
the re-run makes no network request and performs exactly two
extractions (the platform archive and the source snapshot). -/
theorem C2_witness :
    ∃ evs, download_release exFs "2.9" [exUrl] = some (exFs, evs) ∧
      evs.all (fun e => !e.isNetFetch) = true ∧
      evs.countP (fun e => e.isExtract) = [exUrl].length + 1 ∧
      AcqEvent.rmTree (CURRENT_DIR ++ "/ap-releases/async-profiler-" ++ "2.9" ++ "-code")
        ∈ evs ∧
      AcqEvent.runUnzip (code_archive_file "2.9") (CURRENT_DIR ++ "/ap-releases") ∈ evs :=
  C2_download_idempotent exFs "2.9" [exUrl]
    (by
      intro u hu
      rw [List.mem_singleton] at hu
      subst hu
      exact ⟨exArchive, by decide, by decide⟩)
    (by decide)

/-- Witness for C10: at concrete inputs with the `all` artifact absent, the
trace is the build event followed by the artifact-present trace. -/
theorem C10_witness :
    (deploy_github "2.9" "a name" true false ["linux-x64"] "/tmp/stage"
        false true true).1 =
      GhEvent.buildRelease "2.9" ::
        (deploy_github "2.9" "a name" true false ["linux-x64"] "/tmp/stage"
          true true true).1 :=
  (C10_build_if_absent "2.9" "a name" true false ["linux-x64"] "/tmp/stage" true true).1

end Releaser
